import Mathlib

/-!
# SenseBe BLE-testing application: device state machine

A shallow embedding of `application/ble_testing/main.c` and of the gesture
ladder of `codebase/peripheral_modules/button_ui.h`.

* The two globals of `main.c` that the handlers read and write
  (`current_state`, `conn_count`), together with `app_scan_rsp_data` and the
  device name of `senseberx_ble_default_config`, form the record `State`.
* Every call into another module (radio stack, tick scheduler, indicator,
  deferred queue, button driver, reset) is recorded, in program order, as a
  `Cmd`; a handler is a function `State → State × List Cmd`.
* `log_printf` output is diagnostic only and is not part of the trace.
* `sd_softdevice_is_enabled(&is_sd_enabled)` is a query of the radio stack; the
  byte it writes is the argument `is_sd_enabled` of the handlers that ask.
* `uint32_t` arithmetic is `Nat` arithmetic reduced modulo `2 ^ 32`.
* Byte arrays are lists of `Nat`; the two advertising payloads are read as
  {Len, type, data} records by `ad_parse`.
-/

namespace SenseBe

/-! ## Timer constants -/

/-- Modelled from the spec: the constant `MS_TIMER_FREQ` of `ms_timer.h`, a header
that is not part of the sources at hand; the timer runs at 32768 Hz. -/
def MS_TIMER_FREQ : Nat := 32768

/-- Modelled from the spec: the helper `ROUNDED_DIV(x, y)` used by
`MS_TIMER_TICKS_MS`, division rounded to the nearest integer. -/
def ROUNDED_DIV (x y : Nat) : Nat := (x + y / 2) / y

/-- Modelled from the spec: the macro `MS_TIMER_TICKS_MS(ms)` of `ms_timer.h`, the
upstream conversion of milliseconds to ticks of the 32768 Hz timer: the product
is formed in 64 bits, divided by 1000 with rounding and cast to `uint32_t`. -/
def MS_TIMER_TICKS_MS (ms : Nat) : Nat :=
  ROUNDED_DIV ((MS_TIMER_FREQ * ms) % 2 ^ 64) 1000 % 2 ^ 32

/-- The watchdog period of `main.c`, in ms. -/
def WDT_PERIOD_MS : Nat := 301000

def SENSE_FAST_TICK_INTERVAL_MS : Nat := 60
def SENSE_SLOW_TICK_INTERVAL_MS : Nat := 300000
def ADV_FAST_TICK_INTERVAL_MS : Nat := 60
def ADV_SLOW_TICK_INTERVAL_MS : Nat := 1100
def CONN_FAST_TICK_INTERVAL_MS : Nat := 60
def CONN_SLOW_TICK_INTERVAL_MS : Nat := 1100

/-- The time in ms to timeout of the connected mode. -/
def CONN_TIMEOUT_MS : Nat := 10 * 60 * 1000

/-! ## Enumerations -/

/-- The states possible in the device (`sense_states`). -/
inductive sense_states
  | SENSING
  | ADVERTISING
  | CONNECTED
deriving DecidableEq, Repr

/-- The type of actions possible with buttons (`button_ui.h`). -/
inductive button_ui_action
  | BUTTON_UI_ACT_CROSS
  | BUTTON_UI_ACT_RELEASE
deriving DecidableEq, Repr

/-- The different kinds of button presses (`button_ui.h`), in declaration order. -/
inductive button_ui_steps
  | BUTTON_UI_STEP_QUICK
  | BUTTON_UI_STEP_SHORT
  | BUTTON_UI_STEP_LONG
  | BUTTON_UI_STEP_WAKE
deriving DecidableEq, Repr

/-- The integer value of a `button_ui_steps` enumerator, its index in `press_duration`. -/
def button_ui_steps.toNat : button_ui_steps → Nat
  | .BUTTON_UI_STEP_QUICK => 0
  | .BUTTON_UI_STEP_SHORT => 1
  | .BUTTON_UI_STEP_LONG => 2
  | .BUTTON_UI_STEP_WAKE => 3

/-- The array `press_duration` of `button_ui.h`: the duration, in timer ticks, of
each kind of button press. -/
def press_duration : List Nat :=
  [ MS_TIMER_TICKS_MS 100,
    MS_TIMER_TICKS_MS 5000,
    MS_TIMER_TICKS_MS 15000,
    0xFFFFFFFF ]

/-- The cadence selector of the tick scheduler (`device_tick.h`). -/
inductive device_tick_mode
  | DEVICE_TICK_SLOW
  | DEVICE_TICK_FAST
  | DEVICE_TICK_SAME
deriving DecidableEq, Repr

/-- The tick configuration handed to `device_tick_init`; `main.c` initialises it
positionally as fast ticks, slow ticks, mode. -/
structure device_tick_cfg where
  fast_mode_ticks : Nat
  slow_mode_ticks : Nat
  mode : device_tick_mode
deriving DecidableEq, Repr

/-- The message kinds of the deferred queue (`irq_msg_util.h`). -/
inductive irq_msg_types
  | MSG_NEXT_INTERVAL
  | MSG_STATE_CHANGE
deriving DecidableEq, Repr

/-- The indicator selector passed to `led_ui_type_stop_all`. -/
inductive led_ui_type
  | LED_UI_LOOP_SEQ
deriving DecidableEq, Repr

/-- The indicator patterns started by `main.c`. -/
inductive led_sequences
  | LED_SEQ_ORANGE_WAVE
  | LED_SEQ_GREEN_WAVE
deriving DecidableEq, Repr

/-- The indicator priority used by `main.c`. -/
inductive led_ui_priority_t
  | LED_UI_MID_PRIORITY
deriving DecidableEq, Repr

/-! ## Payloads and configuration -/

/-- The bytes of `APP_DEVICE_NAME_CHAR`: "SenseBe". -/
def app_device_name : List Nat := [0x53, 0x65, 0x6e, 0x73, 0x65, 0x42, 0x65]

/-- The complete 128 bit UUID of the SenseBe service. -/
def APP_UUID_COMPLETE : List Nat :=
  [0x0a, 0xde, 0xfb, 0x07, 0x74, 0x83, 0x66, 0xb0, 0x0d, 0x48, 0xf5, 0x07, 0x60, 0xdc, 0x73, 0x3c]

/-! The advertising data types and flags are the Bluetooth assigned numbers that
the radio stack's `ble_gap.h` gives to these names. -/

def BLE_GAP_AD_TYPE_FLAGS : Nat := 0x01
def BLE_GAP_ADV_FLAGS_LE_ONLY_LIMITED_DISC_MODE : Nat := 0x05
def BLE_GAP_AD_TYPE_COMPLETE_LOCAL_NAME : Nat := 0x09
def BLE_GAP_AD_TYPE_128BIT_SERVICE_UUID_COMPLETE : Nat := 0x07
def BLE_GAP_AD_TYPE_TX_POWER_LEVEL : Nat := 0x0A
def BLE_GAP_AD_TYPE_SHORT_LOCAL_NAME : Nat := 0x08
def BLE_GAP_AD_TYPE_MANUFACTURER_SPECIFIC_DATA : Nat := 0xFF

/-- The advertising payload, a sequence of {Len, type, data}. -/
def APP_ADV_DATA : List Nat :=
  [0x02, BLE_GAP_AD_TYPE_FLAGS, BLE_GAP_ADV_FLAGS_LE_ONLY_LIMITED_DISC_MODE]
    ++ [app_device_name.length + 1, BLE_GAP_AD_TYPE_COMPLETE_LOCAL_NAME] ++ app_device_name
    ++ [0x11, BLE_GAP_AD_TYPE_128BIT_SERVICE_UUID_COMPLETE] ++ APP_UUID_COMPLETE

/-- The scan response payload, a sequence of {Len, type, data}; the short local
name is the sixteen characters of "SB0300190822R088". -/
def APP_SCAN_RSP_DATA : List Nat :=
  [0x02, BLE_GAP_AD_TYPE_TX_POWER_LEVEL, 0]
    ++ [0x11, BLE_GAP_AD_TYPE_SHORT_LOCAL_NAME]
    ++ [0x53, 0x42, 0x30, 0x33, 0x30, 0x30, 0x31, 0x39, 0x30, 0x38, 0x32, 0x32, 0x52, 0x30, 0x38, 0x38]
    ++ [0x04, BLE_GAP_AD_TYPE_MANUFACTURER_SPECIFIC_DATA, 0, 0, 0]

/-- The configuration blob `senseberx_config_t`. Its declaration is in a header
outside the sources at hand; of its fields only the device name, the one field
`main.c` reads back, is represented. -/
structure senseberx_config_t where
  dev_name : List Nat
deriving DecidableEq, Repr

/-- The size in bytes of `dev_id_t`, the type of `sysinfo.id`, which `main.c`
fills with a 16 byte copy. -/
def sizeof_dev_id_t : Nat := 16

/-- The initial value of `senseberx_ble_default_config`: the name "SenseBe",
the rest of the array zero. -/
def senseberx_ble_default_config_init : senseberx_config_t :=
  { dev_name := app_device_name ++ List.replicate (sizeof_dev_id_t - app_device_name.length) 0 }

/-- The argument of `senseberx_ble_adv_init`. -/
structure senseberx_ble_adv_data_t where
  adv_data : List Nat
  scan_rsp_data : List Nat
  adv_len : Nat
  scan_rsp_len : Nat
deriving DecidableEq, Repr

/-- The firmware version record inside `sensebe_sysinfo`. -/
structure fw_ver_t where
  build : Nat
  major : Nat
  minor : Nat
deriving DecidableEq, Repr

/-- The argument of `senseberx_ble_update_sysinfo`. -/
structure sensebe_sysinfo where
  id : List Nat
  battery_status : Nat
  fw_ver : fw_ver_t
deriving DecidableEq, Repr

/-! ## Commands and state -/

/-- One call into a collaborating module (or one write of a hardware register),
with its arguments. -/
inductive Cmd
  | button_ui_add_tick (ui_ticks : Nat)
  | senseberx_ble_disconn
  | sd_softdevice_disable
  | led_ui_type_stop_all (t : led_ui_type)
  | led_ui_loop_start (seq : led_sequences) (priority : led_ui_priority_t)
  | device_tick_init (cfg : device_tick_cfg)
  | device_tick_switch_mode (mode : device_tick_mode)
  | senseberx_ble_stack_init
  | senseberx_ble_gap_params_init
  | senseberx_ble_service_init
  | senseberx_ble_adv_init (adv : senseberx_ble_adv_data_t)
  | senseberx_ble_update_sysinfo (sysinfo : sensebe_sysinfo)
  | senseberx_ble_update_config (config : senseberx_config_t)
  | senseberx_ble_adv_start
  | irq_msg_push (t : irq_msg_types) (data : sense_states)
  | button_ui_config_wake (set_wake_on : Bool)
  | GPREGRET_write (v : Nat)
  | sd_nvic_SystemReset
  | NVIC_SystemReset
  | leds_init
  | log_init
  | boot_pwr_config
  | lfclk_init
  | ms_timer_init
  | hal_wdt_init (period_ms : Nat)
  | hal_wdt_start
  | button_ui_init
  | irq_msg_init
  | senseberx_ble_init
deriving DecidableEq, Repr

/-- The variables in RAM of `main.c`. -/
structure State where
  current_state : sense_states
  conn_count : Nat
  app_scan_rsp_data : List Nat
  senseberx_ble_default_config : senseberx_config_t
deriving DecidableEq, Repr

/-- The byte-wise copy `memcpy(&dst[off], src, n)` on arrays held as lists; a
byte past the end of `src` reads as 0 and a write past the end of `dst` is lost. -/
def memcpy (dst : List Nat) (off : Nat) (src : List Nat) (n : Nat) : List Nat :=
  (List.range n).foldl (fun d i => d.set (off + i) (src.getD i 0)) dst

/-! ## The handlers of `main.c` -/

/-- The function `prepare_init_ble_adv`: patches the scan response with the
build number and the device id and hands both payloads to the radio module. -/
def prepare_init_ble_adv (st : State) : State × List Cmd :=
  let app_adv_data := APP_ADV_DATA
  let rsp1 := st.app_scan_rsp_data.set 25 8
  let rsp2 := memcpy rsp1 5 st.senseberx_ble_default_config.dev_name sizeof_dev_id_t
  let app_adv_data_struct : senseberx_ble_adv_data_t :=
    { adv_data := app_adv_data
      scan_rsp_data := rsp2
      adv_len := app_adv_data.length
      scan_rsp_len := rsp2.length }
  ({ st with app_scan_rsp_data := rsp2 }, [Cmd.senseberx_ble_adv_init app_adv_data_struct])

/-- The function `next_interval_handler`: the periodic tick. -/
def next_interval_handler (interval : Nat) (st : State) : State × List Cmd :=
  match st.current_state with
  | .SENSING => (st, [Cmd.button_ui_add_tick interval])
  | .ADVERTISING => (st, [Cmd.button_ui_add_tick interval])
  | .CONNECTED =>
    let conn_count := (st.conn_count + interval) % 2 ^ 32
    ({ st with conn_count := conn_count },
      Cmd.button_ui_add_tick interval ::
        (if conn_count > MS_TIMER_TICKS_MS CONN_TIMEOUT_MS then [Cmd.senseberx_ble_disconn] else []))

/-- The function `state_change_handler`. The `uint32_t` argument always carries a
`sense_states` value: every `irq_msg_push(MSG_STATE_CHANGE, ...)` of `main.c`
passes one. `is_sd_enabled` is the byte reported by `sd_softdevice_is_enabled`. -/
def state_change_handler (new_state : sense_states) (is_sd_enabled : Nat) (st : State) :
    State × List Cmd :=
  if new_state = st.current_state then
    (st, [])
  else
    let st1 := { st with current_state := new_state }
    match new_state with
    | .SENSING =>
      let tick_cfg : device_tick_cfg :=
        { fast_mode_ticks := MS_TIMER_TICKS_MS SENSE_FAST_TICK_INTERVAL_MS
          slow_mode_ticks := MS_TIMER_TICKS_MS SENSE_SLOW_TICK_INTERVAL_MS
          mode := .DEVICE_TICK_SAME }
      (st1, [Cmd.sd_softdevice_disable,
             Cmd.led_ui_type_stop_all .LED_UI_LOOP_SEQ,
             Cmd.device_tick_init tick_cfg])
    | .ADVERTISING =>
      let st2 := { st1 with conn_count := 0 }
      let tick_cfg : device_tick_cfg :=
        { fast_mode_ticks := MS_TIMER_TICKS_MS ADV_FAST_TICK_INTERVAL_MS
          slow_mode_ticks := MS_TIMER_TICKS_MS ADV_SLOW_TICK_INTERVAL_MS
          mode := .DEVICE_TICK_SAME }
      let (st3, init_cmds) :=
        if is_sd_enabled = 0 then
          let (st3, adv_cmds) := prepare_init_ble_adv st2
          let sysinfo : sensebe_sysinfo :=
            { id := (st3.app_scan_rsp_data.drop 5).take 16
              battery_status := 0
              fw_ver := { build := 8, major := 0, minor := 0 } }
          (st3, [Cmd.senseberx_ble_stack_init,
                 Cmd.senseberx_ble_gap_params_init,
                 Cmd.senseberx_ble_service_init]
                ++ adv_cmds
                ++ [Cmd.senseberx_ble_update_sysinfo sysinfo,
                    Cmd.senseberx_ble_update_config st3.senseberx_ble_default_config])
        else
          (st2, [])
      (st3, [Cmd.device_tick_init tick_cfg] ++ init_cmds
            ++ [Cmd.senseberx_ble_adv_start,
                Cmd.led_ui_type_stop_all .LED_UI_LOOP_SEQ,
                Cmd.led_ui_loop_start .LED_SEQ_ORANGE_WAVE .LED_UI_MID_PRIORITY])
    | .CONNECTED =>
      let tick_cfg : device_tick_cfg :=
        { fast_mode_ticks := MS_TIMER_TICKS_MS CONN_FAST_TICK_INTERVAL_MS
          slow_mode_ticks := MS_TIMER_TICKS_MS CONN_SLOW_TICK_INTERVAL_MS
          mode := .DEVICE_TICK_SAME }
      (st1, [Cmd.device_tick_init tick_cfg,
             Cmd.led_ui_type_stop_all .LED_UI_LOOP_SEQ,
             Cmd.led_ui_loop_start .LED_SEQ_GREEN_WAVE .LED_UI_MID_PRIORITY])

/-- The function `button_handler`: the handler for all button related events.
`is_sd_enabled` is the byte reported by `sd_softdevice_is_enabled`, asked for
only on a long-press cross. -/
def button_handler (step : button_ui_steps) (act : button_ui_action) (is_sd_enabled : Nat)
    (st : State) : State × List Cmd :=
  if act = .BUTTON_UI_ACT_CROSS then
    match step with
    | .BUTTON_UI_STEP_WAKE =>
      let tick_cfg : device_tick_cfg :=
        { fast_mode_ticks := MS_TIMER_TICKS_MS SENSE_FAST_TICK_INTERVAL_MS
          slow_mode_ticks := MS_TIMER_TICKS_MS SENSE_SLOW_TICK_INTERVAL_MS
          mode := .DEVICE_TICK_FAST }
      (st, [Cmd.button_ui_config_wake false, Cmd.device_tick_init tick_cfg])
    | .BUTTON_UI_STEP_QUICK =>
      if st.current_state = .SENSING then
        (st, [Cmd.irq_msg_push .MSG_STATE_CHANGE .ADVERTISING])
      else
        (st, [])
    | .BUTTON_UI_STEP_SHORT => (st, [])
    | .BUTTON_UI_STEP_LONG =>
      (st, [Cmd.GPREGRET_write 0xB1,
            if is_sd_enabled = 0 then Cmd.sd_nvic_SystemReset else Cmd.NVIC_SystemReset])
  else
    -- the `switch (step)` that follows the two calls has four empty cases
    (st, [Cmd.device_tick_switch_mode .DEVICE_TICK_SLOW, Cmd.button_ui_config_wake true])

/-- The case labels of `ble_evt_handler`. Their numeric values are fixed by the
radio stack's header, which is outside the sources at hand, so they are taken
as given. -/
structure ble_gap_evts where
  BLE_GAP_EVT_CONNECTED : Nat
  BLE_GAP_EVT_DISCONNECTED : Nat
  BLE_GAP_EVT_ADV_SET_TERMINATED : Nat
  BLE_GAP_EVT_CONN_PARAM_UPDATE : Nat
deriving DecidableEq, Repr

/-- The case labels of a C `switch` are pairwise different. -/
def ble_gap_evts.distinct (ids : ble_gap_evts) : Prop :=
  ids.BLE_GAP_EVT_CONNECTED ≠ ids.BLE_GAP_EVT_DISCONNECTED ∧
  ids.BLE_GAP_EVT_CONNECTED ≠ ids.BLE_GAP_EVT_ADV_SET_TERMINATED ∧
  ids.BLE_GAP_EVT_CONNECTED ≠ ids.BLE_GAP_EVT_CONN_PARAM_UPDATE ∧
  ids.BLE_GAP_EVT_DISCONNECTED ≠ ids.BLE_GAP_EVT_ADV_SET_TERMINATED ∧
  ids.BLE_GAP_EVT_DISCONNECTED ≠ ids.BLE_GAP_EVT_CONN_PARAM_UPDATE ∧
  ids.BLE_GAP_EVT_ADV_SET_TERMINATED ≠ ids.BLE_GAP_EVT_CONN_PARAM_UPDATE

instance (ids : ble_gap_evts) : Decidable ids.distinct := by
  unfold ble_gap_evts.distinct; infer_instance

/-- The function `ble_evt_handler`: the handler of the events generated by the
radio stack; `evt_id` is `evt->header.evt_id`. -/
def ble_evt_handler (ids : ble_gap_evts) (evt_id : Nat) (st : State) : State × List Cmd :=
  if evt_id = ids.BLE_GAP_EVT_CONNECTED then
    (st, [Cmd.irq_msg_push .MSG_STATE_CHANGE .CONNECTED])
  else if evt_id = ids.BLE_GAP_EVT_DISCONNECTED then
    (st, [Cmd.irq_msg_push .MSG_STATE_CHANGE .SENSING])
  else if evt_id = ids.BLE_GAP_EVT_ADV_SET_TERMINATED then
    (st, [Cmd.irq_msg_push .MSG_STATE_CHANGE .SENSING])
  else if evt_id = ids.BLE_GAP_EVT_CONN_PARAM_UPDATE then
    (st, [])
  else
    (st, [])

/-- The variables in RAM as the C start-up code leaves them: zero where `main.c`
gives no initialiser. -/
def State.boot : State :=
  { current_state := .SENSING
    conn_count := 0
    app_scan_rsp_data := APP_SCAN_RSP_DATA
    senseberx_ble_default_config := senseberx_ble_default_config_init }

/-- The function `main` up to its endless loop. The copies into
`generic_settings`, a field of the configuration that is not represented,
leave the represented state as it is. -/
def main : State × List Cmd :=
  let st := State.boot
  let st1 := { st with current_state := .ADVERTISING }
  (st1, [Cmd.leds_init, Cmd.log_init, Cmd.boot_pwr_config, Cmd.lfclk_init, Cmd.ms_timer_init,
         Cmd.hal_wdt_init WDT_PERIOD_MS, Cmd.hal_wdt_start,
         Cmd.button_ui_init, Cmd.irq_msg_init,
         Cmd.irq_msg_push .MSG_STATE_CHANGE .SENSING,
         Cmd.senseberx_ble_init])

/-- The function `slumber`: `true` when it sleeps through the radio stack
(`sd_app_evt_wait`), `false` when it sleeps directly (`__WFI`). -/
def slumber (is_sd_enabled : Nat) : Bool :=
  if is_sd_enabled = 0 then false else true

/-! ## Derived notions used by the statements -/

/-- The ticks of a list, delivered one after the other to `next_interval_handler`
with nothing else running in between. -/
def deliver_ticks : List Nat → State → State × List Cmd
  | [], st => (st, [])
  | t :: ts, st =>
    let r1 := next_interval_handler t st
    let r2 := deliver_ticks ts r1.1
    (r2.1, r1.2 ++ r2.2)

/-- How often the forced disconnect occurs in a trace. -/
def disconn_count (trace : List Cmd) : Nat :=
  trace.count Cmd.senseberx_ble_disconn

/-- The requests a trace pushes onto the deferred queue, in order. -/
def pushed (trace : List Cmd) : List (irq_msg_types × sense_states) :=
  trace.filterMap fun c =>
    match c with
    | Cmd.irq_msg_push t data => some (t, data)
    | _ => none

/-- The threshold `press_duration[step]`. -/
def threshold (step : button_ui_steps) : Nat :=
  press_duration.getD step.toNat 0

/-- The threshold that follows the one of `step`, `press_duration[step + 1]`. -/
def next_threshold (step : button_ui_steps) : Nat :=
  press_duration.getD (step.toNat + 1) 0

/-- The tick configurations a trace installs with `device_tick_init`, in order. -/
def installed_cfgs (trace : List Cmd) : List device_tick_cfg :=
  trace.filterMap fun c =>
    match c with
    | Cmd.device_tick_init cfg => some cfg
    | _ => none

/-- The configuration that the case of `state_change_handler` for the mode builds. -/
def entry_tick_cfg : sense_states → device_tick_cfg
  | .SENSING =>
    { fast_mode_ticks := MS_TIMER_TICKS_MS SENSE_FAST_TICK_INTERVAL_MS
      slow_mode_ticks := MS_TIMER_TICKS_MS SENSE_SLOW_TICK_INTERVAL_MS
      mode := .DEVICE_TICK_SAME }
  | .ADVERTISING =>
    { fast_mode_ticks := MS_TIMER_TICKS_MS ADV_FAST_TICK_INTERVAL_MS
      slow_mode_ticks := MS_TIMER_TICKS_MS ADV_SLOW_TICK_INTERVAL_MS
      mode := .DEVICE_TICK_SAME }
  | .CONNECTED =>
    { fast_mode_ticks := MS_TIMER_TICKS_MS CONN_FAST_TICK_INTERVAL_MS
      slow_mode_ticks := MS_TIMER_TICKS_MS CONN_SLOW_TICK_INTERVAL_MS
      mode := .DEVICE_TICK_SAME }

/-- The configuration the wake-cross case of `button_handler` builds. -/
def wake_tick_cfg : device_tick_cfg :=
  { fast_mode_ticks := MS_TIMER_TICKS_MS SENSE_FAST_TICK_INTERVAL_MS
    slow_mode_ticks := MS_TIMER_TICKS_MS SENSE_SLOW_TICK_INTERVAL_MS
    mode := .DEVICE_TICK_FAST }

/-- One {Len, type, data} record of a payload: the offset of its Len byte, the
Len byte, the type byte and the data bytes. -/
structure ad_record where
  offset : Nat
  len : Nat
  ad_type : Nat
  data : List Nat
deriving DecidableEq, Repr

/-- The records of a payload read from offset `off` on, as the format of the
payloads says: a Len byte, then Len further bytes, the first of them the
type. The result is `none` when a Len byte is 0 or counts more bytes than are
left. One unit of fuel is spent for each record. -/
def ad_parse_from : Nat → Nat → List Nat → Option (List ad_record)
  | _, _, [] => some []
  | 0, _, _ :: _ => none
  | fuel + 1, off, len :: rest =>
    match rest with
    | [] => none
    | ad_type :: body =>
      if len = 0 ∨ body.length < len - 1 then none
      else
        (ad_parse_from fuel (off + 1 + len) (body.drop (len - 1))).map fun records =>
          { offset := off, len := len, ad_type := ad_type, data := body.take (len - 1) } :: records

/-- The records of a whole payload; a record takes at least two bytes, so the
length of the payload is fuel enough. -/
def ad_parse (payload : List Nat) : Option (List ad_record) :=
  ad_parse_from payload.length 0 payload

/-- The offsets of the Len and type bytes of a list of records. -/
def header_offsets (records : List ad_record) : List Nat :=
  records.foldr (fun r acc => r.offset :: (r.offset + 1) :: acc) []

/-- The offsets that `prepare_init_ble_adv` writes in `app_scan_rsp_data`: byte 25
and the `sizeof(dev_id_t)` bytes from offset 5 on. -/
def prepare_init_ble_adv_writes : List Nat :=
  25 :: (List.range sizeof_dev_id_t).map fun i => 5 + i

/-! ## Basic facts about the handlers -/

/-- The connection timeout in timer ticks. -/
theorem conn_timeout_ticks : MS_TIMER_TICKS_MS CONN_TIMEOUT_MS = 19660800 := by
  decide

/-- A tick outside the connected mode leaves the state as it is. -/
theorem next_interval_handler_idle (interval : Nat) (st : State)
    (h : st.current_state ≠ .CONNECTED) : (next_interval_handler interval st).1 = st := by
  unfold next_interval_handler
  cases hs : st.current_state with
  | SENSING => rfl
  | ADVERTISING => rfl
  | CONNECTED => exact absurd hs h

/-- Ticks delivered outside the connected mode leave the state as it is. -/
theorem deliver_ticks_idle (ticks : List Nat) (st : State)
    (h : st.current_state ≠ .CONNECTED) : (deliver_ticks ticks st).1 = st := by
  induction ticks with
  | nil => rfl
  | cons t ts ih =>
    simp only [deliver_ticks]
    rw [next_interval_handler_idle t st h]
    exact ih

/-- After `state_change_handler` the current state is the requested one. -/
theorem state_change_handler_current (s : sense_states) (sd : Nat) (st : State) :
    (state_change_handler s sd st).1.current_state = s := by
  unfold state_change_handler
  by_cases h : s = st.current_state
  · simp [h]
  · cases s <;> simp only [h, if_false]
    · by_cases hsd : sd = 0 <;> simp [hsd, prepare_init_ble_adv]

/-- A tick in the connected mode: the timer advances modulo `2 ^ 32` and the
disconnect follows the forwarded tick when the new value is past the timeout. -/
theorem next_interval_handler_connected (interval : Nat) (st : State)
    (h : st.current_state = .CONNECTED) :
    next_interval_handler interval st
      = ({ st with conn_count := (st.conn_count + interval) % 2 ^ 32 },
          Cmd.button_ui_add_tick interval ::
            (if (st.conn_count + interval) % 2 ^ 32 > MS_TIMER_TICKS_MS CONN_TIMEOUT_MS
              then [Cmd.senseberx_ble_disconn] else [])) := by
  unfold next_interval_handler
  rw [h]

/-- The disconnects of a tick in the connected mode. -/
theorem disconn_count_tick_connected (interval : Nat) (st : State)
    (h : st.current_state = .CONNECTED) :
    disconn_count (next_interval_handler interval st).2
      = if (st.conn_count + interval) % 2 ^ 32 > MS_TIMER_TICKS_MS CONN_TIMEOUT_MS
          then 1 else 0 := by
  rw [next_interval_handler_connected interval st h]
  unfold disconn_count
  split <;> simp [List.count_cons]

theorem disconn_count_append (a b : List Cmd) :
    disconn_count (a ++ b) = disconn_count a + disconn_count b := by
  unfold disconn_count
  exact List.count_append _ _ _

/-- The state after a tick in the connected mode that does not wrap the timer. -/
theorem next_interval_handler_connected_state (interval : Nat) (st : State)
    (h : st.current_state = .CONNECTED) (hb : st.conn_count + interval < 2 ^ 32) :
    (next_interval_handler interval st).1
      = { st with conn_count := st.conn_count + interval } := by
  rw [next_interval_handler_connected interval st h, Nat.mod_eq_of_lt hb]

/-- Delivering a list of ticks in two parts. -/
theorem deliver_ticks_append (a b : List Nat) (st : State) :
    deliver_ticks (a ++ b) st
      = ((deliver_ticks b (deliver_ticks a st).1).1,
          (deliver_ticks a st).2 ++ (deliver_ticks b (deliver_ticks a st).1).2) := by
  induction a generalizing st with
  | nil => simp [deliver_ticks]
  | cons t ts ih =>
    rw [List.cons_append]
    simp only [deliver_ticks]
    rw [ih (next_interval_handler t st).1]
    simp [List.append_assoc]

/-- Ticks in the connected mode that do not wrap the timer add up on it and
leave everything else alone. -/
theorem deliver_ticks_connected_state (ticks : List Nat) (st : State)
    (h : st.current_state = .CONNECTED) (hb : st.conn_count + ticks.sum < 2 ^ 32) :
    (deliver_ticks ticks st).1 = { st with conn_count := st.conn_count + ticks.sum } := by
  induction ticks generalizing st with
  | nil => simp [deliver_ticks]
  | cons t ts ih =>
    simp only [List.sum_cons] at hb
    simp only [deliver_ticks, List.sum_cons]
    rw [next_interval_handler_connected_state t st h (by omega),
      ih { st with conn_count := st.conn_count + t } h (by simp only; omega)]
    simp only [Nat.add_assoc]

/-- While the timer stays at or below the timeout no disconnect is issued. -/
theorem disconn_count_below (ticks : List Nat) (st : State)
    (h : st.current_state = .CONNECTED)
    (hb : st.conn_count + ticks.sum ≤ MS_TIMER_TICKS_MS CONN_TIMEOUT_MS) :
    disconn_count (deliver_ticks ticks st).2 = 0 := by
  induction ticks generalizing st with
  | nil => simp [deliver_ticks, disconn_count]
  | cons t ts ih =>
    rw [conn_timeout_ticks] at hb
    simp only [List.sum_cons] at hb
    have hm : (st.conn_count + t) % 2 ^ 32 = st.conn_count + t :=
      Nat.mod_eq_of_lt (by omega)
    simp only [deliver_ticks]
    rw [disconn_count_append, disconn_count_tick_connected t st h,
      next_interval_handler_connected_state t st h (by omega), hm,
      ih { st with conn_count := st.conn_count + t } h
        (by simp only [conn_timeout_ticks]; omega),
      conn_timeout_ticks]
    simp only [Nat.add_zero, ite_eq_right_iff]
    omega

/-- Once the timer is past the timeout, without wrapping, a disconnect has been issued. -/
theorem disconn_count_above (ticks : List Nat) (st : State)
    (h : st.current_state = .CONNECTED)
    (hgt : MS_TIMER_TICKS_MS CONN_TIMEOUT_MS < st.conn_count + ticks.sum)
    (hb : st.conn_count + ticks.sum < 2 ^ 32) :
    st.conn_count ≤ MS_TIMER_TICKS_MS CONN_TIMEOUT_MS →
      1 ≤ disconn_count (deliver_ticks ticks st).2 := by
  induction ticks generalizing st with
  | nil => intro hlo; simp at hgt; omega
  | cons t ts ih =>
    intro _
    simp only [List.sum_cons] at hb hgt
    have hm : (st.conn_count + t) % 2 ^ 32 = st.conn_count + t :=
      Nat.mod_eq_of_lt (by omega)
    simp only [deliver_ticks]
    rw [disconn_count_append, disconn_count_tick_connected t st h,
      next_interval_handler_connected_state t st h (by omega), hm]
    by_cases hc : MS_TIMER_TICKS_MS CONN_TIMEOUT_MS < st.conn_count + t
    · simp [hc]
    · have := ih { st with conn_count := st.conn_count + t } h (by simp only; omega)
        (by simp only; omega) (by simp only; omega)
      omega

/-- The disconnects of a run in the connected mode that does not wrap the timer:
one for every tick after which the running total is past the timeout. -/
theorem disconn_count_prefixes (ticks : List Nat) (st : State)
    (h : st.current_state = .CONNECTED) (hb : st.conn_count + ticks.sum < 2 ^ 32) :
    disconn_count (deliver_ticks ticks st).2
      = ((List.range ticks.length).filter fun k =>
          decide (MS_TIMER_TICKS_MS CONN_TIMEOUT_MS
            < st.conn_count + (ticks.take (k + 1)).sum)).length := by
  induction ticks generalizing st with
  | nil => simp [deliver_ticks, disconn_count]
  | cons t ts ih =>
    simp only [List.sum_cons] at hb
    have hm : (st.conn_count + t) % 2 ^ 32 = st.conn_count + t :=
      Nat.mod_eq_of_lt (by omega)
    simp only [deliver_ticks, List.length_cons]
    rw [disconn_count_append, disconn_count_tick_connected t st h,
      next_interval_handler_connected_state t st h (by omega), hm,
      ih { st with conn_count := st.conn_count + t } h (by simp only; omega),
      List.range_succ_eq_map, List.filter_cons, List.filter_map]
    simp only [List.take_succ_cons, List.sum_cons, List.take_zero, List.sum_nil, Nat.add_zero,
      Nat.zero_add, Function.comp_def, Nat.add_assoc, gt_iff_lt, Nat.succ_eq_add_one]
    by_cases hc : MS_TIMER_TICKS_MS CONN_TIMEOUT_MS < st.conn_count + t
    · rw [if_pos hc, if_pos (by simpa using hc), List.length_cons, List.length_map]
      omega
    · rw [if_neg hc, if_neg (by simpa using hc), List.length_map]
      omega

/-- The self-transition guard: a request for the mode the device is in returns at once. -/
theorem state_change_handler_guard (s : sense_states) (sd : Nat) (st : State)
    (h : s = st.current_state) : state_change_handler s sd st = (st, []) := by
  simp [state_change_handler, h]

/-- Entering CONNECTED from another mode does not touch the connection timer. -/
theorem state_change_handler_connected_keeps (sd : Nat) (st : State)
    (h : st.current_state ≠ .CONNECTED) :
    (state_change_handler .CONNECTED sd st).1.conn_count = st.conn_count := by
  have h1 : ¬ (sense_states.CONNECTED = st.current_state) := fun e => h e.symm
  simp [state_change_handler, h1]

/-- The tick configurations `state_change_handler` installs: none on a
self-transition, else the one of the mode entered. -/
theorem installed_cfgs_state_change (s : sense_states) (sd : Nat) (st : State) :
    installed_cfgs (state_change_handler s sd st).2
      = if s = st.current_state then [] else [entry_tick_cfg s] := by
  by_cases h : s = st.current_state
  · rw [state_change_handler_guard s sd st h, if_pos h]
    rfl
  · rw [if_neg h]
    cases s
    · simp [state_change_handler, h, installed_cfgs, entry_tick_cfg]
    · by_cases hsd : sd = 0 <;>
        simp [state_change_handler, h, hsd, installed_cfgs, entry_tick_cfg, prepare_init_ble_adv]
    · simp [state_change_handler, h, installed_cfgs, entry_tick_cfg]

/-- The tick configurations `button_handler` installs: the wake configuration on
a wake cross, none otherwise. -/
theorem installed_cfgs_button (step : button_ui_steps) (act : button_ui_action) (sd : Nat)
    (st : State) :
    installed_cfgs (button_handler step act sd st).2
      = if act = .BUTTON_UI_ACT_CROSS ∧ step = .BUTTON_UI_STEP_WAKE then [wake_tick_cfg]
        else [] := by
  cases act
  · cases step
    · by_cases hs : st.current_state = .SENSING <;> simp [button_handler, installed_cfgs, hs]
    · simp [button_handler, installed_cfgs]
    · by_cases hsd : sd = 0 <;> simp [button_handler, installed_cfgs, hsd]
    · simp [button_handler, installed_cfgs, wake_tick_cfg]
  · simp [button_handler, installed_cfgs]

/-- The other handlers and `main` install no tick configuration. -/
theorem installed_cfgs_others (interval : Nat) (ids : ble_gap_evts) (evt_id : Nat) (st : State) :
    installed_cfgs (next_interval_handler interval st).2 = []
      ∧ installed_cfgs (ble_evt_handler ids evt_id st).2 = []
      ∧ installed_cfgs main.2 = [] := by
  refine ⟨?_, ?_, rfl⟩
  · unfold next_interval_handler
    cases st.current_state
    · rfl
    · rfl
    · simp only [installed_cfgs]
      split <;> rfl
  · unfold ble_evt_handler
    split_ifs <;> rfl

/-- A list of sixteen bytes, spelled out. -/
theorem list_of_length_sixteen (l : List Nat) (h : l.length = 16) :
    ∃ x0 x1 x2 x3 x4 x5 x6 x7 x8 x9 x10 x11 x12 x13 x14 x15 : Nat,
      l = [x0, x1, x2, x3, x4, x5, x6, x7, x8, x9, x10, x11, x12, x13, x14, x15] :=
  match l, h with
  | [x0, x1, x2, x3, x4, x5, x6, x7, x8, x9, x10, x11, x12, x13, x14, x15], _ =>
    ⟨x0, x1, x2, x3, x4, x5, x6, x7, x8, x9, x10, x11, x12, x13, x14, x15, rfl⟩

theorem range_sixteen :
    List.range 16 = [0, 1, 2, 3, 4, 5, 6, 7, 8, 9, 10, 11, 12, 13, 14, 15] := by
  decide

/-- The scan response after `prepare_init_ble_adv`, for an array with the framing
of `APP_SCAN_RSP_DATA` and any data bytes: the name is the device id and the
last byte is 8. -/
theorem prepare_init_ble_adv_scan_rsp (st : State) (p a b c : Nat) (nm : List Nat)
    (hn : nm.length = 16)
    (hst : st.app_scan_rsp_data = [0x02, 0x0A, p, 0x11, 0x08] ++ nm ++ [0x04, 0xFF, a, b, c]) :
    (prepare_init_ble_adv st).1.app_scan_rsp_data
      = [0x02, 0x0A, p, 0x11, 0x08]
          ++ (List.range 16).map (fun i => st.senseberx_ble_default_config.dev_name.getD i 0)
          ++ [0x04, 0xFF, a, b, 8] := by
  obtain ⟨x0, x1, x2, x3, x4, x5, x6, x7, x8, x9, x10, x11, x12, x13, x14, x15, rfl⟩ :=
    list_of_length_sixteen nm hn
  simp only [prepare_init_ble_adv, hst, memcpy, sizeof_dev_id_t, range_sixteen, List.foldl_cons,
    List.foldl_nil, List.cons_append, List.nil_append, List.set_cons_succ, List.set_cons_zero,
    List.map_cons, List.map_nil, Nat.add_zero, Nat.reduceAdd]

/-! ## The claims -/

/-- C1, evaluated on the code: on a long-press cross `button_handler` writes the
retention register and then takes the stack-aware restart `sd_nvic_SystemReset`
when the radio stack reports inactive (0) and the direct restart
`NVIC_SystemReset` when it reports active, the reverse of the pairing that
`slumber` makes for the same report. -/
theorem C1_long_cross_restart_choice (st : State) (is_sd_enabled : Nat) :
    button_handler .BUTTON_UI_STEP_LONG .BUTTON_UI_ACT_CROSS is_sd_enabled st
        = (st, [Cmd.GPREGRET_write 0xB1,
                if is_sd_enabled = 0 then Cmd.sd_nvic_SystemReset else Cmd.NVIC_SystemReset])
      ∧ (button_handler .BUTTON_UI_STEP_LONG .BUTTON_UI_ACT_CROSS 1 st).2
          = [Cmd.GPREGRET_write 0xB1, Cmd.NVIC_SystemReset]
      ∧ (button_handler .BUTTON_UI_STEP_LONG .BUTTON_UI_ACT_CROSS 0 st).2
          = [Cmd.GPREGRET_write 0xB1, Cmd.sd_nvic_SystemReset]
      ∧ slumber 1 = true ∧ slumber 0 = false := by
  refine ⟨rfl, rfl, rfl, rfl, rfl⟩

set_option maxRecDepth 100000 in
/-- C2 as stated fails, in both directions, from CONNECTED with the timer at 0:
the ticks 19660801, 1 sum to more than the timeout of 19660800 and the
disconnect is issued twice, as it is over 547 slow ticks of the connected mode
(1100 ms, 36045 timer ticks each); the ticks 19660800, 4275306496 sum to
`2 ^ 32`, the timer wraps to 0 and the disconnect is not issued at all. -/
theorem C2_counterexample :
    ({ State.boot with current_state := .CONNECTED } : State).conn_count = 0
      ∧ MS_TIMER_TICKS_MS CONN_TIMEOUT_MS < [19660801, 1].sum
      ∧ disconn_count
          (deliver_ticks [19660801, 1] { State.boot with current_state := .CONNECTED }).2 = 2
      ∧ MS_TIMER_TICKS_MS CONN_TIMEOUT_MS
          < (List.replicate 547 (MS_TIMER_TICKS_MS CONN_SLOW_TICK_INTERVAL_MS)).sum
      ∧ disconn_count
          (deliver_ticks (List.replicate 547 (MS_TIMER_TICKS_MS CONN_SLOW_TICK_INTERVAL_MS))
            { State.boot with current_state := .CONNECTED }).2 = 2
      ∧ MS_TIMER_TICKS_MS CONN_TIMEOUT_MS < [19660800, 4275306496].sum
      ∧ disconn_count
          (deliver_ticks [19660800, 4275306496]
            { State.boot with current_state := .CONNECTED }).2 = 0 := by
  decide

/-- C2, amended: ticks delivered in CONNECTED from a timer at 0, summing to more
than the timeout and to less than `2 ^ 32`, leave the mode CONNECTED and issue
the forced disconnect once for every tick after which the running sum is past
the timeout: at least once, and exactly once if and only if the sum without the
last tick is not past the timeout. -/
theorem C2_forced_disconnect_count (ticks : List Nat) (st : State)
    (hs : st.current_state = .CONNECTED) (hc : st.conn_count = 0)
    (hgt : MS_TIMER_TICKS_MS CONN_TIMEOUT_MS < ticks.sum) (hlt : ticks.sum < 2 ^ 32) :
    (deliver_ticks ticks st).1.current_state = .CONNECTED
      ∧ disconn_count (deliver_ticks ticks st).2
          = ((List.range ticks.length).filter fun k =>
              decide (MS_TIMER_TICKS_MS CONN_TIMEOUT_MS < (ticks.take (k + 1)).sum)).length
      ∧ 1 ≤ disconn_count (deliver_ticks ticks st).2
      ∧ (disconn_count (deliver_ticks ticks st).2 = 1
          ↔ ticks.dropLast.sum ≤ MS_TIMER_TICKS_MS CONN_TIMEOUT_MS) := by
  have hT := conn_timeout_ticks
  have hb : st.conn_count + ticks.sum < 2 ^ 32 := by omega
  have hne : ticks ≠ [] := by
    intro e
    rw [e] at hgt
    simp at hgt
  refine ⟨?_, ?_, ?_, ?_⟩
  · rw [deliver_ticks_connected_state ticks st hs hb]
    exact hs
  · rw [disconn_count_prefixes ticks st hs hb]
    simp only [hc, Nat.zero_add]
  · exact disconn_count_above ticks st hs (by omega) hb (by omega)
  · have hsplit : ticks = ticks.dropLast ++ [ticks.getLast hne] :=
      (List.dropLast_append_getLast hne).symm
    have hsum : ticks.sum = ticks.dropLast.sum + ticks.getLast hne := by
      conv => lhs; rw [hsplit]
      simp
    have hb1 : st.conn_count + ticks.dropLast.sum < 2 ^ 32 := by omega
    have hmid := deliver_ticks_connected_state ticks.dropLast st hs hb1
    have hlast : disconn_count
        (deliver_ticks [ticks.getLast hne] (deliver_ticks ticks.dropLast st).1).2 = 1 := by
      rw [hmid]
      simp only [deliver_ticks, List.append_nil]
      rw [disconn_count_tick_connected (ticks.getLast hne)
        { st with conn_count := st.conn_count + ticks.dropLast.sum } hs]
      have hm : (st.conn_count + ticks.dropLast.sum + ticks.getLast hne) % 2 ^ 32
          = st.conn_count + ticks.dropLast.sum + ticks.getLast hne :=
        Nat.mod_eq_of_lt (by omega)
      simp only [hm]
      rw [if_pos (by omega)]
    have hcount : disconn_count (deliver_ticks ticks st).2
        = disconn_count (deliver_ticks ticks.dropLast st).2 + 1 := by
      conv => lhs; rw [hsplit, deliver_ticks_append]
      rw [disconn_count_append, hlast]
    rw [hcount]
    constructor
    · intro h1
      by_contra hcon
      have := disconn_count_above ticks.dropLast st hs (by omega) hb1 (by omega)
      omega
    · intro h1
      rw [disconn_count_below ticks.dropLast st hs (by omega)]

/-- C2 amended, at an instance: a tick of 19660800 that reaches the timeout and
a tick of 36045 (1100 ms) that passes it give one disconnect. -/
theorem C2_forced_disconnect_count_witness :
    disconn_count
        (deliver_ticks [19660800, 36045] { State.boot with current_state := .CONNECTED }).2 = 1 :=
  (C2_forced_disconnect_count [19660800, 36045] { State.boot with current_state := .CONNECTED }
    rfl rfl (by decide) (by decide)).2.2.2.2 (by decide)

/-- C3 as stated fails: from SENSING with 5 ticks on the connection timer,
`state_change_handler(CONNECTED)` leaves the timer at 5. -/
theorem C3_counterexample :
    ({ State.boot with conn_count := 5 } : State).current_state ≠ .CONNECTED
      ∧ (state_change_handler .CONNECTED 1 { State.boot with conn_count := 5 }).1.conn_count = 5
      ∧ (state_change_handler .CONNECTED 1 { State.boot with conn_count := 5 }).1.conn_count ≠ 0 := by
  decide

/-- C3, amended: entering CONNECTED from another mode keeps `conn_count` at its
prior value; the timer is reset on entry to ADVERTISING from another mode, so
after that entry, any ticks, and the entry to CONNECTED it reads 0. -/
theorem C3_conn_count_on_connected_entry (st st0 : State) (sd sd0 sd1 : Nat) (ticks : List Nat)
    (h : st.current_state ≠ .CONNECTED) (h0 : st0.current_state ≠ .ADVERTISING) :
    (state_change_handler .CONNECTED sd st).1.conn_count = st.conn_count
      ∧ (state_change_handler .ADVERTISING sd0 st0).1.conn_count = 0
      ∧ (state_change_handler .CONNECTED sd1
          (deliver_ticks ticks (state_change_handler .ADVERTISING sd0 st0).1).1).1.conn_count = 0 := by
  have h0' : ¬ (sense_states.ADVERTISING = st0.current_state) := fun e => h0 e.symm
  have hadv : (state_change_handler .ADVERTISING sd0 st0).1.conn_count = 0 := by
    unfold state_change_handler
    by_cases hsd : sd0 = 0 <;> simp [h0', hsd, prepare_init_ble_adv]
  have hcur := state_change_handler_current .ADVERTISING sd0 st0
  refine ⟨state_change_handler_connected_keeps sd st h, hadv, ?_⟩
  rw [deliver_ticks_idle ticks _ (by rw [hcur]; decide),
    state_change_handler_connected_keeps sd1 _ (by rw [hcur]; decide)]
  exact hadv

/-- C3 amended, at an instance: SENSING with the timer at 5 keeps 5 on entry to
CONNECTED, and reads 0 when ADVERTISING is entered first. -/
theorem C3_conn_count_on_connected_entry_witness :
    (state_change_handler .CONNECTED 1 { State.boot with conn_count := 5 }).1.conn_count = 5
      ∧ (state_change_handler .ADVERTISING 0 { State.boot with conn_count := 5 }).1.conn_count = 0
      ∧ (state_change_handler .CONNECTED 1
          (deliver_ticks [36045, 36045]
            (state_change_handler .ADVERTISING 0
              { State.boot with conn_count := 5 }).1).1).1.conn_count = 0 :=
  C3_conn_count_on_connected_entry { State.boot with conn_count := 5 }
    { State.boot with conn_count := 5 } 1 0 1 [36045, 36045] (by decide) (by decide)

/-- C4: a requested transition to the current state changes neither
`current_state` nor `conn_count` (nor any other variable) and issues no
command at all. -/
theorem C4_self_transition_noop (st : State) (sd : Nat) :
    state_change_handler st.current_state sd st = (st, []) :=
  state_change_handler_guard st.current_state sd st rfl

/-- C5: `state_change_handler(s)` called twice in succession ends in the same
state and has issued the same commands as one call; the second call issues
nothing, in particular no radio-stack initialisation. -/
theorem C5_state_change_twice (s : sense_states) (sd1 sd2 : Nat) (st : State) :
    (state_change_handler s sd2 (state_change_handler s sd1 st).1).1
        = (state_change_handler s sd1 st).1
      ∧ (state_change_handler s sd1 st).2
          ++ (state_change_handler s sd2 (state_change_handler s sd1 st).1).2
        = (state_change_handler s sd1 st).2
      ∧ Cmd.senseberx_ble_stack_init
          ∉ (state_change_handler s sd2 (state_change_handler s sd1 st).1).2 := by
  have hcur := state_change_handler_current s sd1 st
  rw [state_change_handler_guard s sd2 (state_change_handler s sd1 st).1 hcur.symm]
  simp

/-- C6: `main` leaves `current_state = ADVERTISING` and exactly one queued
request, a state change to SENSING; that request is not a self-transition,
and `state_change_handler` answers it by moving to SENSING and issuing, once
each, the radio-stack deactivation, the stop of the looping indicator and the
tick configuration with the sensing rates (60 ms and 300000 ms, that is 1966
and 9830400 timer ticks). -/
theorem C6_startup_forces_sensing_entry (sd : Nat) :
    main.1.current_state = .ADVERTISING
      ∧ pushed main.2 = [(.MSG_STATE_CHANGE, .SENSING)]
      ∧ sense_states.SENSING ≠ main.1.current_state
      ∧ state_change_handler .SENSING sd main.1
          = ({ main.1 with current_state := .SENSING },
              [Cmd.sd_softdevice_disable,
               Cmd.led_ui_type_stop_all .LED_UI_LOOP_SEQ,
               Cmd.device_tick_init
                 { fast_mode_ticks := MS_TIMER_TICKS_MS 60
                   slow_mode_ticks := MS_TIMER_TICKS_MS 300000
                   mode := .DEVICE_TICK_SAME }])
      ∧ MS_TIMER_TICKS_MS 60 = 1966 ∧ MS_TIMER_TICKS_MS 300000 = 9830400 := by
  refine ⟨rfl, by decide, by decide, ?_, by decide, by decide⟩
  rfl

/-- C7: a transition into ADVERTISING from another mode sets `conn_count` to 0
and issues, in this order, the tick configuration with the advertising rates
(60 ms and 1100 ms), the radio-stack initialisation sequence exactly when the
stack reports not active, the start of advertising, and the orange-wave
indicator (after stopping the looping patterns). -/
theorem C7_advertising_entry (st : State) (sd : Nat) (h : st.current_state ≠ .ADVERTISING) :
    (state_change_handler .ADVERTISING sd st).1.conn_count = 0
      ∧ (state_change_handler .ADVERTISING sd st).1.current_state = .ADVERTISING
      ∧ (∃ adv sysinfo config,
          (state_change_handler .ADVERTISING sd st).2
            = [Cmd.device_tick_init
                { fast_mode_ticks := MS_TIMER_TICKS_MS 60
                  slow_mode_ticks := MS_TIMER_TICKS_MS 1100
                  mode := .DEVICE_TICK_SAME }]
              ++ (if sd = 0 then
                    [Cmd.senseberx_ble_stack_init,
                     Cmd.senseberx_ble_gap_params_init,
                     Cmd.senseberx_ble_service_init,
                     Cmd.senseberx_ble_adv_init adv,
                     Cmd.senseberx_ble_update_sysinfo sysinfo,
                     Cmd.senseberx_ble_update_config config]
                  else [])
              ++ [Cmd.senseberx_ble_adv_start,
                  Cmd.led_ui_type_stop_all .LED_UI_LOOP_SEQ,
                  Cmd.led_ui_loop_start .LED_SEQ_ORANGE_WAVE .LED_UI_MID_PRIORITY])
      ∧ (Cmd.senseberx_ble_stack_init ∈ (state_change_handler .ADVERTISING sd st).2 ↔ sd = 0) := by
  have h1 : ¬ (sense_states.ADVERTISING = st.current_state) := fun e => h e.symm
  refine ⟨?_, ?_,
    ⟨{ adv_data := APP_ADV_DATA
       scan_rsp_data := memcpy (st.app_scan_rsp_data.set 25 8) 5
         st.senseberx_ble_default_config.dev_name sizeof_dev_id_t
       adv_len := APP_ADV_DATA.length
       scan_rsp_len := (memcpy (st.app_scan_rsp_data.set 25 8) 5
         st.senseberx_ble_default_config.dev_name sizeof_dev_id_t).length },
     { id := ((memcpy (st.app_scan_rsp_data.set 25 8) 5
         st.senseberx_ble_default_config.dev_name sizeof_dev_id_t).drop 5).take 16
       battery_status := 0
       fw_ver := { build := 8, major := 0, minor := 0 } },
     st.senseberx_ble_default_config, ?_⟩, ?_⟩ <;>
    by_cases hsd : sd = 0 <;>
    simp [state_change_handler, h1, hsd, prepare_init_ble_adv, ADV_FAST_TICK_INTERVAL_MS,
      ADV_SLOW_TICK_INTERVAL_MS]

/-- C7 at an instance: from SENSING with the timer at 5 and the radio stack
reporting inactive, the timer reads 0 after the transition and the stack
initialisation is among the commands. -/
theorem C7_advertising_entry_witness :
    (state_change_handler .ADVERTISING 0 { State.boot with conn_count := 5 }).1.conn_count = 0
      ∧ Cmd.senseberx_ble_stack_init
          ∈ (state_change_handler .ADVERTISING 0 { State.boot with conn_count := 5 }).2 :=
  ⟨(C7_advertising_entry { State.boot with conn_count := 5 } 0 (by decide)).1,
    (C7_advertising_entry { State.boot with conn_count := 5 } 0 (by decide)).2.2.2.2 rfl⟩

/-- C8: on a quick-press cross `button_handler` leaves every variable, so also
`current_state`, as it was, and pushes one request, a state change to
ADVERTISING, exactly when the current state is SENSING; in ADVERTISING and
CONNECTED it issues nothing. -/
theorem C8_quick_cross_request (st : State) (sd : Nat) :
    (button_handler .BUTTON_UI_STEP_QUICK .BUTTON_UI_ACT_CROSS sd st).1 = st
      ∧ (button_handler .BUTTON_UI_STEP_QUICK .BUTTON_UI_ACT_CROSS sd st).2
          = (if st.current_state = .SENSING
              then [Cmd.irq_msg_push .MSG_STATE_CHANGE .ADVERTISING] else [])
      ∧ (pushed (button_handler .BUTTON_UI_STEP_QUICK .BUTTON_UI_ACT_CROSS sd st).2
            = [(.MSG_STATE_CHANGE, .ADVERTISING)]
          ↔ st.current_state = .SENSING)
      ∧ (pushed (button_handler .BUTTON_UI_STEP_QUICK .BUTTON_UI_ACT_CROSS sd st).2 = []
          ↔ (st.current_state = .ADVERTISING ∨ st.current_state = .CONNECTED)) := by
  cases hs : st.current_state <;> simp [button_handler, hs, pushed]

/-- C9: `ble_evt_handler` never changes a variable; it pushes one state-change
request for CONNECTED on `BLE_GAP_EVT_CONNECTED`, one for SENSING on
`BLE_GAP_EVT_DISCONNECTED` and on `BLE_GAP_EVT_ADV_SET_TERMINATED`, and nothing
on any other event id. -/
theorem C9_ble_evt_requests (ids : ble_gap_evts) (evt_id : Nat) (st : State)
    (hd : ids.distinct) :
    (ble_evt_handler ids evt_id st).1 = st
      ∧ (ble_evt_handler ids evt_id st).2
          = (if evt_id = ids.BLE_GAP_EVT_CONNECTED then
              [Cmd.irq_msg_push .MSG_STATE_CHANGE .CONNECTED]
            else if evt_id = ids.BLE_GAP_EVT_DISCONNECTED
                ∨ evt_id = ids.BLE_GAP_EVT_ADV_SET_TERMINATED then
              [Cmd.irq_msg_push .MSG_STATE_CHANGE .SENSING]
            else [])
      ∧ (ble_evt_handler ids ids.BLE_GAP_EVT_CONNECTED st).2
          = [Cmd.irq_msg_push .MSG_STATE_CHANGE .CONNECTED]
      ∧ (ble_evt_handler ids ids.BLE_GAP_EVT_DISCONNECTED st).2
          = [Cmd.irq_msg_push .MSG_STATE_CHANGE .SENSING]
      ∧ (ble_evt_handler ids ids.BLE_GAP_EVT_ADV_SET_TERMINATED st).2
          = [Cmd.irq_msg_push .MSG_STATE_CHANGE .SENSING]
      ∧ (ble_evt_handler ids ids.BLE_GAP_EVT_CONN_PARAM_UPDATE st).2 = [] := by
  obtain ⟨h1, h2, h3, h4, h5, h6⟩ := hd
  refine ⟨?_, ?_, ?_, ?_, ?_, ?_⟩
  · unfold ble_evt_handler
    split_ifs <;> rfl
  · unfold ble_evt_handler
    split_ifs <;> simp_all
  · simp [ble_evt_handler]
  · simp [ble_evt_handler, Ne.symm h1]
  · simp [ble_evt_handler, Ne.symm h2, Ne.symm h4]
  · simp [ble_evt_handler, Ne.symm h3, Ne.symm h5, Ne.symm h6]

/-- C9 at an instance, with the event numbering 0x10, 0x11, 0x26, 0x12: the
event 0x11 requests SENSING and the event 0x13 requests nothing. -/
theorem C9_ble_evt_requests_witness :
    (ble_evt_handler ⟨0x10, 0x11, 0x26, 0x12⟩ 0x11 State.boot).2
        = [Cmd.irq_msg_push .MSG_STATE_CHANGE .SENSING]
      ∧ (ble_evt_handler ⟨0x10, 0x11, 0x26, 0x12⟩ 0x13 State.boot).2 = [] :=
  ⟨(C9_ble_evt_requests ⟨0x10, 0x11, 0x26, 0x12⟩ 0x11 State.boot (by decide)).2.2.2.1,
    (C9_ble_evt_requests ⟨0x10, 0x11, 0x26, 0x12⟩ 0x13 State.boot (by decide)).2.1⟩

/-- The ladder in timer ticks. -/
theorem press_duration_ticks : press_duration = [3277, 163840, 491520, 4294967295] := by
  decide

/-- C10: a held duration `D` from the quick threshold up to, but not including,
the sentinel lies in the half-open interval of exactly one of the steps QUICK,
SHORT, LONG; the threshold of that step is the largest one not above `D`; the
step does not decrease when `D` grows; and 5200 ms lies in the step SHORT. -/
theorem C10_ladder_unique_step (D : Nat)
    (hlo : threshold .BUTTON_UI_STEP_QUICK ≤ D) (hhi : D < 0xFFFFFFFF) :
    (∃! s : button_ui_steps,
        s ≠ .BUTTON_UI_STEP_WAKE ∧ threshold s ≤ D ∧ D < next_threshold s)
      ∧ (∀ s s2 : button_ui_steps,
          s ≠ .BUTTON_UI_STEP_WAKE ∧ threshold s ≤ D ∧ D < next_threshold s →
            threshold s2 ≤ D → threshold s2 ≤ threshold s)
      ∧ (∀ (D2 : Nat) (s s2 : button_ui_steps), D ≤ D2 →
          s ≠ .BUTTON_UI_STEP_WAKE ∧ threshold s ≤ D ∧ D < next_threshold s →
          s2 ≠ .BUTTON_UI_STEP_WAKE ∧ threshold s2 ≤ D2 ∧ D2 < next_threshold s2 →
            s.toNat ≤ s2.toNat)
      ∧ (threshold .BUTTON_UI_STEP_SHORT ≤ MS_TIMER_TICKS_MS 5200
          ∧ MS_TIMER_TICKS_MS 5200 < next_threshold .BUTTON_UI_STEP_SHORT
          ∧ threshold .BUTTON_UI_STEP_SHORT = MS_TIMER_TICKS_MS 5000) := by
  have t0 : threshold .BUTTON_UI_STEP_QUICK = 3277 := by decide
  have t1 : threshold .BUTTON_UI_STEP_SHORT = 163840 := by decide
  have t2 : threshold .BUTTON_UI_STEP_LONG = 491520 := by decide
  have t3 : threshold .BUTTON_UI_STEP_WAKE = 4294967295 := by decide
  have n0 : next_threshold .BUTTON_UI_STEP_QUICK = 163840 := by decide
  have n1 : next_threshold .BUTTON_UI_STEP_SHORT = 491520 := by decide
  have n2 : next_threshold .BUTTON_UI_STEP_LONG = 4294967295 := by decide
  rw [t0] at hlo
  refine ⟨?_, ?_, ?_, by decide⟩
  · by_cases h1 : D < 163840
    · refine ⟨.BUTTON_UI_STEP_QUICK, ⟨by decide, by omega, by omega⟩, ?_⟩
      rintro y ⟨hy, hy1, hy2⟩
      cases y <;> simp_all <;> omega
    · by_cases h2 : D < 491520
      · refine ⟨.BUTTON_UI_STEP_SHORT, ⟨by decide, by omega, by omega⟩, ?_⟩
        rintro y ⟨hy, hy1, hy2⟩
        cases y <;> simp_all <;> omega
      · refine ⟨.BUTTON_UI_STEP_LONG, ⟨by decide, by omega, by omega⟩, ?_⟩
        rintro y ⟨hy, hy1, hy2⟩
        cases y <;> simp_all <;> omega
  · rintro s s2 ⟨hs, hs1, hs2⟩ h2
    cases s <;> cases s2 <;> simp_all <;> omega
  · rintro D2 s s2 hD ⟨hs, hs1, hs2⟩ ⟨hs3, hs4, hs5⟩
    cases s <;> cases s2 <;> simp_all [button_ui_steps.toNat] <;> omega

/-- C10 at an instance: a press held for 5200 ms (170394 timer ticks) lies in
the step SHORT and in no other. -/
theorem C10_ladder_unique_step_witness :
    ∃! s : button_ui_steps,
      s ≠ .BUTTON_UI_STEP_WAKE ∧ threshold s ≤ 170394 ∧ 170394 < next_threshold s :=
  (C10_ladder_unique_step 170394 (by decide) (by decide)).1

/-- C11: the ladder `press_duration` is strictly increasing in index order, with
the thresholds of 100 ms, 5000 ms and 15000 ms below the sentinel; it has one
entry for each value of `button_ui_steps`; and its last entry, the one of
`BUTTON_UI_STEP_WAKE`, is `0xFFFFFFFF`, which no 32 bit duration exceeds. -/
theorem C11_ladder_increasing_with_sentinel :
    List.Pairwise (fun a b => a < b) press_duration
      ∧ press_duration
          = [MS_TIMER_TICKS_MS 100, MS_TIMER_TICKS_MS 5000, MS_TIMER_TICKS_MS 15000, 0xFFFFFFFF]
      ∧ (MS_TIMER_TICKS_MS 100 < MS_TIMER_TICKS_MS 5000
          ∧ MS_TIMER_TICKS_MS 5000 < MS_TIMER_TICKS_MS 15000
          ∧ MS_TIMER_TICKS_MS 15000 < 0xFFFFFFFF)
      ∧ press_duration.length = 4
      ∧ (∀ i : Fin press_duration.length, ∃! s : button_ui_steps, s.toNat = i.val)
      ∧ (∀ s : button_ui_steps, s.toNat < press_duration.length)
      ∧ press_duration.getLast? = some 0xFFFFFFFF
      ∧ threshold .BUTTON_UI_STEP_WAKE = 0xFFFFFFFF
      ∧ button_ui_steps.BUTTON_UI_STEP_WAKE.toNat + 1 = press_duration.length
      ∧ (∀ D : Fin (2 ^ 32), ¬ threshold .BUTTON_UI_STEP_WAKE < D.val) := by
  have hw : threshold .BUTTON_UI_STEP_WAKE = 0xFFFFFFFF := by decide
  refine ⟨by decide, rfl, by decide, rfl, ?_, ?_, by decide, hw, rfl, ?_⟩
  · intro i
    have hi : i.val < 4 := i.isLt
    have h4 : i.val = 0 ∨ i.val = 1 ∨ i.val = 2 ∨ i.val = 3 := by omega
    rcases h4 with h | h | h | h
    · refine ⟨.BUTTON_UI_STEP_QUICK, by rw [h]; rfl, ?_⟩
      intro y hy
      cases y <;> simp_all [button_ui_steps.toNat]
    · refine ⟨.BUTTON_UI_STEP_SHORT, by rw [h]; rfl, ?_⟩
      intro y hy
      cases y <;> simp_all [button_ui_steps.toNat]
    · refine ⟨.BUTTON_UI_STEP_LONG, by rw [h]; rfl, ?_⟩
      intro y hy
      cases y <;> simp_all [button_ui_steps.toNat]
    · refine ⟨.BUTTON_UI_STEP_WAKE, by rw [h]; rfl, ?_⟩
      intro y hy
      cases y <;> simp_all [button_ui_steps.toNat]
  · intro s
    cases s <;> decide
  · intro D
    have hD : D.val < 2 ^ 32 := D.isLt
    rw [hw]
    omega

/-- C12: a tick configuration installed by any handler or by `main` is one of
the three entry configurations of `state_change_handler` or the wake-cross
configuration of `button_handler`; its intervals satisfy 0 < fast < slow, and
both lie below the watchdog period, compared in timer ticks and compared in
milliseconds (the intervals are the conversions of values below 301000 ms). -/
theorem C12_installed_cfgs_bounded (cfg : device_tick_cfg) (s : sense_states)
    (step : button_ui_steps) (act : button_ui_action) (sd interval evt_id : Nat)
    (ids : ble_gap_evts) (st : State)
    (h : cfg ∈ installed_cfgs (state_change_handler s sd st).2
      ∨ cfg ∈ installed_cfgs (button_handler step act sd st).2
      ∨ cfg ∈ installed_cfgs (next_interval_handler interval st).2
      ∨ cfg ∈ installed_cfgs (ble_evt_handler ids evt_id st).2
      ∨ cfg ∈ installed_cfgs main.2) :
    (cfg = entry_tick_cfg .SENSING ∨ cfg = entry_tick_cfg .ADVERTISING
        ∨ cfg = entry_tick_cfg .CONNECTED ∨ cfg = wake_tick_cfg)
      ∧ 0 < cfg.fast_mode_ticks
      ∧ cfg.fast_mode_ticks < cfg.slow_mode_ticks
      ∧ cfg.slow_mode_ticks < MS_TIMER_TICKS_MS WDT_PERIOD_MS
      ∧ (∃ fast_ms slow_ms : Nat,
          cfg.fast_mode_ticks = MS_TIMER_TICKS_MS fast_ms
            ∧ cfg.slow_mode_ticks = MS_TIMER_TICKS_MS slow_ms
            ∧ 0 < fast_ms ∧ fast_ms < slow_ms ∧ slow_ms < WDT_PERIOD_MS)
      ∧ WDT_PERIOD_MS = 301000 := by
  have hothers := installed_cfgs_others interval ids evt_id st
  rw [installed_cfgs_state_change, installed_cfgs_button, hothers.1, hothers.2.1, hothers.2.2] at h
  have key : cfg = entry_tick_cfg .SENSING ∨ cfg = entry_tick_cfg .ADVERTISING
      ∨ cfg = entry_tick_cfg .CONNECTED ∨ cfg = wake_tick_cfg := by
    rcases h with h | h | h | h | h
    · split at h
      · simp at h
      · cases s <;> simp_all
    · split at h
      · simp_all
      · simp at h
    · simp at h
    · simp at h
    · simp at h
  refine ⟨key, ?_⟩
  rcases key with k | k | k | k <;> subst k
  · exact ⟨by decide, by decide, by decide,
      ⟨SENSE_FAST_TICK_INTERVAL_MS, SENSE_SLOW_TICK_INTERVAL_MS, rfl, rfl,
        by decide, by decide, by decide⟩, rfl⟩
  · exact ⟨by decide, by decide, by decide,
      ⟨ADV_FAST_TICK_INTERVAL_MS, ADV_SLOW_TICK_INTERVAL_MS, rfl, rfl,
        by decide, by decide, by decide⟩, rfl⟩
  · exact ⟨by decide, by decide, by decide,
      ⟨CONN_FAST_TICK_INTERVAL_MS, CONN_SLOW_TICK_INTERVAL_MS, rfl, rfl,
        by decide, by decide, by decide⟩, rfl⟩
  · exact ⟨by decide, by decide, by decide,
      ⟨SENSE_FAST_TICK_INTERVAL_MS, SENSE_SLOW_TICK_INTERVAL_MS, rfl, rfl,
        by decide, by decide, by decide⟩, rfl⟩

/-- C12 at an instance: the configuration installed on entry to ADVERTISING from
the boot state has 1966 fast ticks and 36045 slow ticks, below the 9863168
ticks of the watchdog period. -/
theorem C12_installed_cfgs_bounded_witness :
    (0 : Nat) < 1966 ∧ (1966 : Nat) < 36045 ∧ (36045 : Nat) < MS_TIMER_TICKS_MS WDT_PERIOD_MS
      ∧ entry_tick_cfg .ADVERTISING
          ∈ installed_cfgs (state_change_handler .ADVERTISING 0 State.boot).2 :=
  have h : entry_tick_cfg .ADVERTISING
      ∈ installed_cfgs (state_change_handler .ADVERTISING 0 State.boot).2 := by decide
  have w := C12_installed_cfgs_bounded (entry_tick_cfg .ADVERTISING) .ADVERTISING
    .BUTTON_UI_STEP_QUICK .BUTTON_UI_ACT_CROSS 0 0 0 ⟨0x10, 0x11, 0x26, 0x12⟩ State.boot
    (Or.inl h)
  ⟨w.2.1, w.2.2.1, w.2.2.2.1, h⟩

/-- C13: on a wake cross `button_handler`, in every mode, disables the button
wake interrupt and installs a tick configuration whose cadence is
`DEVICE_TICK_FAST`; it pushes no message and leaves `current_state`,
`conn_count` and every other variable as they were. -/
theorem C13_wake_cross_frame (st : State) (sd : Nat) :
    button_handler .BUTTON_UI_STEP_WAKE .BUTTON_UI_ACT_CROSS sd st
        = (st, [Cmd.button_ui_config_wake false, Cmd.device_tick_init wake_tick_cfg])
      ∧ wake_tick_cfg.mode = .DEVICE_TICK_FAST
      ∧ pushed (button_handler .BUTTON_UI_STEP_WAKE .BUTTON_UI_ACT_CROSS sd st).2 = []
      ∧ (button_handler .BUTTON_UI_STEP_WAKE .BUTTON_UI_ACT_CROSS sd st).1.current_state
          = st.current_state
      ∧ (button_handler .BUTTON_UI_STEP_WAKE .BUTTON_UI_ACT_CROSS sd st).1.conn_count
          = st.conn_count :=
  ⟨rfl, rfl, rfl, rfl, rfl⟩

/-- C14: on a release `button_handler`, for every step and in every mode, issues
exactly `device_tick_switch_mode(DEVICE_TICK_SLOW)` and then
`button_ui_config_wake(true)`; it installs no tick configuration, pushes no
message and leaves `current_state`, `conn_count` and every other variable as
they were. -/
theorem C14_release_frame (step : button_ui_steps) (st : State) (sd : Nat) :
    button_handler step .BUTTON_UI_ACT_RELEASE sd st
        = (st, [Cmd.device_tick_switch_mode .DEVICE_TICK_SLOW, Cmd.button_ui_config_wake true])
      ∧ installed_cfgs (button_handler step .BUTTON_UI_ACT_RELEASE sd st).2 = []
      ∧ pushed (button_handler step .BUTTON_UI_ACT_RELEASE sd st).2 = []
      ∧ (button_handler step .BUTTON_UI_ACT_RELEASE sd st).1.current_state = st.current_state
      ∧ (button_handler step .BUTTON_UI_ACT_RELEASE sd st).1.conn_count = st.conn_count :=
  ⟨rfl, rfl, rfl, rfl, rfl⟩

/-- C15: `next_interval_handler` forwards the interval to `button_ui_add_tick`
once, as its first command; it never changes `current_state`; it changes
`conn_count` only in CONNECTED, to the sum with the interval modulo `2 ^ 32`;
and the forced disconnect follows on that tick exactly when the mode is
CONNECTED and the new `conn_count` is above the timeout, so never in SENSING
or ADVERTISING. -/
theorem C15_tick_handler (interval : Nat) (st : State) :
    (next_interval_handler interval st).2
        = Cmd.button_ui_add_tick interval ::
            (if st.current_state = .CONNECTED
                ∧ MS_TIMER_TICKS_MS CONN_TIMEOUT_MS < (st.conn_count + interval) % 2 ^ 32
              then [Cmd.senseberx_ble_disconn] else [])
      ∧ (next_interval_handler interval st).2.count (Cmd.button_ui_add_tick interval) = 1
      ∧ (next_interval_handler interval st).1.current_state = st.current_state
      ∧ (next_interval_handler interval st).1.conn_count
          = (if st.current_state = .CONNECTED then (st.conn_count + interval) % 2 ^ 32
              else st.conn_count)
      ∧ (Cmd.senseberx_ble_disconn ∈ (next_interval_handler interval st).2
          ↔ st.current_state = .CONNECTED
              ∧ MS_TIMER_TICKS_MS CONN_TIMEOUT_MS
                  < (next_interval_handler interval st).1.conn_count)
      ∧ (disconn_count (next_interval_handler interval st).2 = 0
          ∨ st.current_state = .CONNECTED) := by
  cases hs : st.current_state
  · simp [next_interval_handler, hs, disconn_count]
  · simp [next_interval_handler, hs, disconn_count]
  · by_cases hc : MS_TIMER_TICKS_MS CONN_TIMEOUT_MS < (st.conn_count + interval) % 4294967296
    · simp [next_interval_handler, hs, hc, List.count_cons]
    · simp [next_interval_handler, hs, hc, List.count_cons]

/-- C16: the wake-cross case of `button_handler` installs, whatever the mode,
the configuration of 60 ms fast, 300000 ms slow and cadence
`DEVICE_TICK_FAST`. So when ADVERTISING or CONNECTED has been entered, with a
slow interval of 1100 ms, a wake cross leaves 300000 ms as the slow interval
of the configuration installed last, and so does the release that follows,
which installs no configuration. -/
theorem C16_wake_cfg_replaces_mode_cfg (st : State) (s : sense_states) (step : button_ui_steps)
    (sd sd1 sd2 : Nat) (hs : s = .ADVERTISING ∨ s = .CONNECTED) (hne : s ≠ st.current_state) :
    (∀ (st0 : State) (sd0 : Nat),
        installed_cfgs (button_handler .BUTTON_UI_STEP_WAKE .BUTTON_UI_ACT_CROSS sd0 st0).2
          = [{ fast_mode_ticks := MS_TIMER_TICKS_MS 60
               slow_mode_ticks := MS_TIMER_TICKS_MS 300000
               mode := .DEVICE_TICK_FAST }])
      ∧ (installed_cfgs (state_change_handler s sd st).2).map (fun c => c.slow_mode_ticks)
          = [MS_TIMER_TICKS_MS 1100]
      ∧ ((installed_cfgs
            ((state_change_handler s sd st).2
              ++ (button_handler .BUTTON_UI_STEP_WAKE .BUTTON_UI_ACT_CROSS sd1
                    (state_change_handler s sd st).1).2)).getLast?).map
            (fun c => c.slow_mode_ticks)
          = some (MS_TIMER_TICKS_MS 300000)
      ∧ ((installed_cfgs
            ((state_change_handler s sd st).2
              ++ (button_handler .BUTTON_UI_STEP_WAKE .BUTTON_UI_ACT_CROSS sd1
                    (state_change_handler s sd st).1).2
              ++ (button_handler step .BUTTON_UI_ACT_RELEASE sd2
                    (button_handler .BUTTON_UI_STEP_WAKE .BUTTON_UI_ACT_CROSS sd1
                      (state_change_handler s sd st).1).1).2)).getLast?).map
            (fun c => c.slow_mode_ticks)
          = some (MS_TIMER_TICKS_MS 300000)
      ∧ (button_handler step .BUTTON_UI_ACT_RELEASE sd2
            (button_handler .BUTTON_UI_STEP_WAKE .BUTTON_UI_ACT_CROSS sd1
              (state_change_handler s sd st).1).1).1.current_state = s
      ∧ MS_TIMER_TICKS_MS 300000 = 9830400 ∧ MS_TIMER_TICKS_MS 1100 = 36045 := by
  have hentry := installed_cfgs_state_change s sd st
  rw [if_neg hne] at hentry
  have hcur := state_change_handler_current s sd st
  refine ⟨fun st0 sd0 => rfl, ?_, ?_, ?_, hcur, by decide, by decide⟩
  · rw [hentry]
    rcases hs with h | h <;> subst h <;> rfl
  · simp only [installed_cfgs] at hentry ⊢
    rw [List.filterMap_append, hentry]
    rfl
  · simp only [installed_cfgs] at hentry ⊢
    rw [List.filterMap_append, List.filterMap_append, hentry]
    rfl

/-- C16 at an instance: ADVERTISING entered from the boot state, then a wake
cross and the release of a quick press; the configuration installed last has
a slow interval of 9830400 ticks (300000 ms), not 36045 (1100 ms). -/
theorem C16_wake_cfg_replaces_mode_cfg_witness :
    ((installed_cfgs
        ((state_change_handler .ADVERTISING 0 State.boot).2
          ++ (button_handler .BUTTON_UI_STEP_WAKE .BUTTON_UI_ACT_CROSS 1
                (state_change_handler .ADVERTISING 0 State.boot).1).2
          ++ (button_handler .BUTTON_UI_STEP_QUICK .BUTTON_UI_ACT_RELEASE 1
                (button_handler .BUTTON_UI_STEP_WAKE .BUTTON_UI_ACT_CROSS 1
                  (state_change_handler .ADVERTISING 0 State.boot).1).1).2)).getLast?).map
        (fun c => c.slow_mode_ticks)
      = some (MS_TIMER_TICKS_MS 300000) :=
  (C16_wake_cfg_replaces_mode_cfg State.boot .ADVERTISING .BUTTON_UI_STEP_QUICK 0 1 1
    (Or.inl rfl) (by decide)).2.2.2.1

/-- C17: `APP_ADV_DATA` (30 bytes) and `APP_SCAN_RSP_DATA` (26 bytes) each read
as three {Len, type, data} records that use up the array, every Len being 1
plus the number of data bytes, within the limit of 31 bytes. For a scan
response array with that framing and any data bytes, the offsets
`prepare_init_ble_adv` writes (25 and 5 to 20) lie inside the array and are
no Len or type offset, and the array it leaves reads as records with the
same offsets, Len and type bytes. -/
theorem C17_payload_records (st : State) (p a b c : Nat) (nm : List Nat)
    (hn : nm.length = 16)
    (hst : st.app_scan_rsp_data = [0x02, 0x0A, p, 0x11, 0x08] ++ nm ++ [0x04, 0xFF, a, b, c]) :
    (∀ r ∈ (ad_parse APP_ADV_DATA).getD [] ++ (ad_parse APP_SCAN_RSP_DATA).getD []
          ++ (ad_parse (prepare_init_ble_adv st).1.app_scan_rsp_data).getD [],
        r.len = 1 + r.data.length)
      ∧ ad_parse APP_ADV_DATA
        = some [⟨0, 0x02, BLE_GAP_AD_TYPE_FLAGS, [BLE_GAP_ADV_FLAGS_LE_ONLY_LIMITED_DISC_MODE]⟩,
                ⟨3, 0x08, BLE_GAP_AD_TYPE_COMPLETE_LOCAL_NAME, app_device_name⟩,
                ⟨12, 0x11, BLE_GAP_AD_TYPE_128BIT_SERVICE_UUID_COMPLETE, APP_UUID_COMPLETE⟩]
      ∧ (app_device_name.length = 7 ∧ APP_UUID_COMPLETE.length = 16)
      ∧ (APP_ADV_DATA.length = 30 ∧ APP_ADV_DATA.length ≤ 31)
      ∧ ad_parse APP_SCAN_RSP_DATA
          = some [⟨0, 0x02, BLE_GAP_AD_TYPE_TX_POWER_LEVEL, [0]⟩,
                  ⟨3, 0x11, BLE_GAP_AD_TYPE_SHORT_LOCAL_NAME,
                    [0x53, 0x42, 0x30, 0x33, 0x30, 0x30, 0x31, 0x39,
                     0x30, 0x38, 0x32, 0x32, 0x52, 0x30, 0x38, 0x38]⟩,
                  ⟨21, 0x04, BLE_GAP_AD_TYPE_MANUFACTURER_SPECIFIC_DATA, [0, 0, 0]⟩]
      ∧ (APP_SCAN_RSP_DATA.length = 26 ∧ APP_SCAN_RSP_DATA.length ≤ 31)
      ∧ ad_parse st.app_scan_rsp_data
          = some [⟨0, 0x02, 0x0A, [p]⟩, ⟨3, 0x11, 0x08, nm⟩, ⟨21, 0x04, 0xFF, [a, b, c]⟩]
      ∧ st.app_scan_rsp_data.length = 26
      ∧ prepare_init_ble_adv_writes
          = [25, 5, 6, 7, 8, 9, 10, 11, 12, 13, 14, 15, 16, 17, 18, 19, 20]
      ∧ (∀ i ∈ prepare_init_ble_adv_writes,
          i < st.app_scan_rsp_data.length
            ∧ i ∉ header_offsets
                [⟨0, 0x02, 0x0A, [p]⟩, ⟨3, 0x11, 0x08, nm⟩, ⟨21, 0x04, 0xFF, [a, b, c]⟩])
      ∧ (prepare_init_ble_adv st).1.app_scan_rsp_data.length = 26
      ∧ (∀ i ∈ header_offsets
            [⟨0, 0x02, 0x0A, [p]⟩, ⟨3, 0x11, 0x08, nm⟩, ⟨21, 0x04, 0xFF, [a, b, c]⟩],
          (prepare_init_ble_adv st).1.app_scan_rsp_data.getD i 0
            = st.app_scan_rsp_data.getD i 0)
      ∧ ad_parse (prepare_init_ble_adv st).1.app_scan_rsp_data
          = some [⟨0, 0x02, 0x0A, [p]⟩,
                  ⟨3, 0x11, 0x08,
                    (List.range 16).map
                      (fun i => st.senseberx_ble_default_config.dev_name.getD i 0)⟩,
                  ⟨21, 0x04, 0xFF, [a, b, 8]⟩] := by
  have hres := prepare_init_ble_adv_scan_rsp st p a b c nm hn hst
  have hw : prepare_init_ble_adv_writes
      = [25, 5, 6, 7, 8, 9, 10, 11, 12, 13, 14, 15, 16, 17, 18, 19, 20] := by decide
  obtain ⟨x0, x1, x2, x3, x4, x5, x6, x7, x8, x9, x10, x11, x12, x13, x14, x15, rfl⟩ :=
    list_of_length_sixteen nm hn
  have hadv : ad_parse APP_ADV_DATA
      = some [⟨0, 0x02, BLE_GAP_AD_TYPE_FLAGS, [BLE_GAP_ADV_FLAGS_LE_ONLY_LIMITED_DISC_MODE]⟩,
              ⟨3, 0x08, BLE_GAP_AD_TYPE_COMPLETE_LOCAL_NAME, app_device_name⟩,
              ⟨12, 0x11, BLE_GAP_AD_TYPE_128BIT_SERVICE_UUID_COMPLETE, APP_UUID_COMPLETE⟩] := by
    decide
  have hrsp : ad_parse APP_SCAN_RSP_DATA
      = some [⟨0, 0x02, BLE_GAP_AD_TYPE_TX_POWER_LEVEL, [0]⟩,
              ⟨3, 0x11, BLE_GAP_AD_TYPE_SHORT_LOCAL_NAME,
                [0x53, 0x42, 0x30, 0x33, 0x30, 0x30, 0x31, 0x39,
                 0x30, 0x38, 0x32, 0x32, 0x52, 0x30, 0x38, 0x38]⟩,
              ⟨21, 0x04, BLE_GAP_AD_TYPE_MANUFACTURER_SPECIFIC_DATA, [0, 0, 0]⟩] := by
    decide
  have hpar : ad_parse (prepare_init_ble_adv st).1.app_scan_rsp_data
      = some [⟨0, 0x02, 0x0A, [p]⟩,
              ⟨3, 0x11, 0x08,
                (List.range 16).map
                  (fun i => st.senseberx_ble_default_config.dev_name.getD i 0)⟩,
              ⟨21, 0x04, 0xFF, [a, b, 8]⟩] := by
    rw [hres]
    simp [ad_parse, ad_parse_from, range_sixteen]
  refine ⟨?_, hadv, by decide, by decide, hrsp, by decide, ?_, ?_, hw, ?_, ?_, ?_, hpar⟩
  · rw [hadv, hrsp, hpar]
    simp [app_device_name, APP_UUID_COMPLETE]
  · rw [hst]
    simp [ad_parse, ad_parse_from]
  · rw [hst]
    rfl
  · rw [hw, hst]
    simp [header_offsets]
  · rw [hres]
    simp
  · rw [hres, hst, range_sixteen]
    simp [header_offsets]

/-- C17 at an instance: the array `APP_SCAN_RSP_DATA` itself with the initial
device name; afterwards the name field holds "SenseBe" and nine zero bytes,
the last byte is 8, and the array still reads as three records. -/
theorem C17_payload_records_witness :
    ad_parse (prepare_init_ble_adv State.boot).1.app_scan_rsp_data
      = some [⟨0, 0x02, 0x0A, [0]⟩,
              ⟨3, 0x11, 0x08,
                (List.range 16).map
                  (fun i => State.boot.senseberx_ble_default_config.dev_name.getD i 0)⟩,
              ⟨21, 0x04, 0xFF, [0, 0, 8]⟩] :=
  (C17_payload_records State.boot 0 0 0 0
    [0x53, 0x42, 0x30, 0x33, 0x30, 0x30, 0x31, 0x39, 0x30, 0x38, 0x32, 0x32, 0x52, 0x30, 0x38, 0x38]
    rfl rfl).2.2.2.2.2.2.2.2.2.2.2.2

end SenseBe
